import Mathlib

/-!
Shallow embedding of `predict.py` from the PhotoMaker cog wrapper.

The repository exposes a single `Predictor.predict` endpoint that
validates the prompt and negative prompt against the trigger token,
applies a style template, collects one face embedding per input image,
invokes the generation pipeline, filters the generated images through a
safety checker, and writes the surviving images into a freshly emptied
`outputs` directory.

External collaborators (the tokenizer, the face analyzer, the diffusion
pipeline, the safety classifier, the style and aspect-ratio tables) are
modelled as components of an `Env` record; the control flow of
`predict` itself is translated line by line from `src/predict.py`.
Images and face embeddings are abstract types.
-/

/-- The literal placeholder that style templates contain and that
`apply_style` substitutes the user prompt for (source line 68). -/
def promptPlaceholder : String := "{prompt}"

/-- The default style key, source line 36. -/
def DEFAULT_STYLE_NAME : String := "Photographic (Default)"

/-- The distinct exceptions `predict` can raise, one per raise site:
the ValueError for a prompt without the trigger token (source lines
209-211), the ValueError for multiple trigger tokens (lines 213-216),
the ValueError for a trigger token in the negative prompt (lines
219-224), the KeyError Python would raise if the styles table lacked
even the default key (line 67), and the ValueError for zero detected
faces (lines 249-250). -/
inductive PredictError where
  | findTrigger
  | multiTrigger
  | negTrigger
  | styleKeyError
  | noFace
deriving DecidableEq

/-- Python `int()` on a rational: truncation toward zero
(source line 260 applies `int` to a nonnegative float). -/
def pyInt (q : ℚ) : ℤ := if 0 ≤ q then ⌊q⌋ else ⌈q⌉

/-- The `start_merge_step` computation of source lines 260-262:
`int(float(style_strength_ratio) / 100 * num_steps)`, then clamped to
at most 30. -/
def start_merge_step_calc (style_strength_ratio : ℚ) (num_steps : ℕ) : ℤ :=
  let s := pyInt (style_strength_ratio / 100 * (num_steps : ℚ))
  if 30 < s then 30 else s

/-- The request record: the argument list of `Predictor.predict`
(source lines 141-193).  The first input image is required; the other
three default to `None`.  `seed` is optional. -/
structure Request (Image : Type) where
  input_image : Image
  input_image2 : Option Image
  input_image3 : Option Image
  input_image4 : Option Image
  aspect_ratio_name : String
  prompt : String
  style_name : String
  negative_prompt : String
  num_steps : ℕ
  style_strength_ratio : ℚ
  num_outputs : ℕ
  guidance_scale : ℚ
  seed : Option ℕ
  disable_safety_checker : Bool

/-- The keyword arguments `predict` passes to the generation pipeline
(source lines 264-279). -/
structure PipeArgs (Image Emb : Type) where
  prompt : String
  width : ℕ
  height : ℕ
  input_id_images : List Image
  negative_prompt : String
  num_images_per_prompt : ℕ
  num_inference_steps : ℕ
  start_merge_step : ℤ
  guidance_scale : ℚ
  id_embeds : List Emb

/-- The external collaborators `predict` talks to: the tokenizer
(`encode` and the trigger token id), the face analyzer (returning the
embeddings of the detected faces of an image, in detection order), the
style table, the aspect-ratio table, the diffusion pipeline and the
safety classifier (returning one NSFW flag per image). -/
structure Env (Image Emb : Type) where
  encode : String → List ℕ
  imageTokenId : ℕ
  analyzeFaces : Image → List Emb
  styles : String → Option (String × String)
  aspectRatios : String → ℕ × ℕ
  pipe : PipeArgs Image Emb → List Image
  safetyChecker : List Image → List Bool

/-- The style templating of source lines 66-68:
`p, n = styles.get(style_name, styles[DEFAULT_STYLE_NAME])` followed by
`p.replace("\x7bprompt\x7d", positive), n + " " + negative`.  A `none`
result corresponds to the KeyError raised when even the default key is
missing. -/
def apply_style (styles : String → Option (String × String))
    (style_name positive negative : String) : Option (String × String) :=
  ((styles style_name).or (styles DEFAULT_STYLE_NAME)).map fun pn =>
    (pn.1.replace promptPlaceholder positive, pn.2 ++ " " ++ negative)

/-- The image-collection loop of source lines 234-238: the non-`None`
inputs among the four image slots, in order. -/
def collectInputImages {Image : Type} (req : Request Image) : List Image :=
  [some req.input_image, req.input_image2, req.input_image3,
    req.input_image4].filterMap id

/-- The embedding-collection loop of source lines 240-247: for each
input image, if the analyzer detects at least one face, the embedding
of the FIRST detected face (`faces[0]`) is appended. -/
def collectIdEmbeds {Image Emb : Type} (env : Env Image Emb)
    (imgs : List Image) : List Emb :=
  imgs.filterMap fun img => (env.analyzeFaces img).head?

/-- File name of the i-th generated image inside the outputs folder
(source line 292). -/
def pathName (i : ℕ) : String := "outputs/image_" ++ toString i ++ ".png"

/-- The saving loop of source lines 287-294, with `i` the enumeration
index: when the safety checker is enabled, an image whose NSFW flag is
set is skipped; every other image is written to `outputs/image_i.png`
and its path recorded. -/
def saveLoop {Image : Type} (disable : Bool) (nsfw : List Bool) :
    ℕ → List Image → List (String × Image)
  | _, [] => []
  | i, img :: rest =>
    if !disable && nsfw.getD i false then saveLoop disable nsfw (i + 1) rest
    else (pathName i, img) :: saveLoop disable nsfw (i + 1) rest

/-- The full saving pass, starting the enumeration at index 0. -/
def saveImages {Image : Type} (disable : Bool) (nsfw : List Bool)
    (images : List Image) : List (String × Image) :=
  saveLoop disable nsfw 0 images

/-- The pipeline invocation of source lines 264-279: width and height
come from the aspect-ratio table, `num_images_per_prompt` is the
requested output count, and `start_merge_step` is the clamped
style-strength computation. -/
def mkPipeArgs {Image Emb : Type} (env : Env Image Emb)
    (req : Request Image) (p np : String) (imgs : List Image)
    (embeds : List Emb) : PipeArgs Image Emb :=
  { prompt := p
    width := (env.aspectRatios req.aspect_ratio_name).1
    height := (env.aspectRatios req.aspect_ratio_name).2
    input_id_images := imgs
    negative_prompt := np
    num_images_per_prompt := req.num_outputs
    num_inference_steps := req.num_steps
    start_merge_step := start_merge_step_calc req.style_strength_ratio req.num_steps
    guidance_scale := req.guidance_scale
    id_embeds := embeds }

/-- Generation stage of `predict` (source lines 234-295), reached once
both prompt checks passed and the style template was applied: collect
the input images and their face embeddings, fail when no face was
detected, otherwise run the pipeline, run the safety checker unless it
is disabled, and save the surviving images. -/
def runGeneration {Image Emb : Type} (env : Env Image Emb)
    (req : Request Image) (p np : String) :
    Except PredictError (List String) × List (String × Image) :=
  let imgs := collectInputImages req
  let embeds := collectIdEmbeds env imgs
  if embeds.isEmpty then (Except.error PredictError.noFace, [])
  else
    let images := env.pipe (mkPipeArgs env req p np imgs embeds)
    let nsfw := if req.disable_safety_checker then [] else env.safetyChecker images
    let saved := saveImages req.disable_safety_checker nsfw images
    (Except.ok (saved.map Prod.fst), saved)

/-- The `predict` endpoint (source lines 141-295) with the filesystem
made explicit: `fs0` is the content of the `outputs` directory before
the call (a list of file-name/content pairs), and the second component
of the result is its content afterwards.  The directory is deleted and
recreated empty first (source lines 195-199), so `fs0` is discarded.
Then the prompt is checked for exactly one trigger token, the negative
prompt is checked to be free of it, the style template is applied, and
generation runs. -/
def predict {Image Emb : Type} (env : Env Image Emb) (req : Request Image)
    (fs0 : List (String × Image)) :
    Except PredictError (List String) × List (String × Image) :=
  if env.imageTokenId ∉ env.encode req.prompt then
    (Except.error PredictError.findTrigger, [])
  else if 1 < (env.encode req.prompt).count env.imageTokenId then
    (Except.error PredictError.multiTrigger, [])
  else if req.negative_prompt ≠ "" ∧
      env.imageTokenId ∈ env.encode req.negative_prompt then
    (Except.error PredictError.negTrigger, [])
  else
    match apply_style env.styles req.style_name req.prompt req.negative_prompt with
    | none => (Except.error PredictError.styleKeyError, [])
    | some (p, np) => runGeneration env req p np

/-- Modelled from the spec: the generation pipeline itself lives in the
photomaker package, which is not under src; per the spec it returns an
ordered list of generated images, one per requested output, i.e. as
many images as `num_images_per_prompt` asks for. -/
def pipeProducesRequestedCount {Image Emb : Type}
    (pipe : PipeArgs Image Emb → List Image) : Prop :=
  ∀ a, (pipe a).length = a.num_images_per_prompt

/-- The indices of the generated images that survive safety filtering:
those whose NSFW flag is false. -/
def specKeptIndices (nsfw : List Bool) (n : ℕ) : List ℕ :=
  (List.range n).filter fun i => !nsfw.getD i false

/-- A concrete environment over natural-number images and embeddings,
used to instantiate the theorems below at computable inputs. -/
def demoEnv : Env ℕ ℕ where
  encode := fun s => [s.length]
  imageTokenId := 3
  analyzeFaces := fun img => if img = 7 then [42] else []
  styles := fun name =>
    if name = DEFAULT_STYLE_NAME then
      some ("photo of {prompt}, best quality", "ugly, deformed")
    else if name = "Cinematic" then
      some ("cinematic still {prompt}", "cartoon, painting")
    else none
  aspectRatios := fun _ => (1024, 1024)
  pipe := fun a => List.range a.num_images_per_prompt
  safetyChecker := fun imgs => imgs.map fun i => decide (i % 2 = 1)

/-- A concrete request whose prompt encodes to a list containing the
demo trigger id exactly once and whose negative prompt avoids it. -/
def demoReq : Request ℕ where
  input_image := 7
  input_image2 := none
  input_image3 := some 7
  input_image4 := none
  aspect_ratio_name := "1:1"
  prompt := "img"
  style_name := "Cinematic"
  negative_prompt := "no"
  num_steps := 20
  style_strength_ratio := 20
  num_outputs := 2
  guidance_scale := 5
  seed := some 0
  disable_safety_checker := false

/-- An environment whose face analyzer detects two faces in every
image, witnessing that only the first face's embedding is kept. -/
def demoEnvTwoFaces : Env ℕ ℕ := { demoEnv with analyzeFaces := fun _ => [10, 20] }

/-- Claim C5, counterexample: at style_strength_ratio = 50 and
num_steps = 100 (both inside the claimed ranges) the code computes 30
because of the clamp at source lines 261-262, while the claimed value
floor(50 / 100 * 100) is 50. -/
theorem c5_counterexample :
    start_merge_step_calc 50 100 = 30 ∧ ⌊(50 : ℚ) / 100 * ((100 : ℕ) : ℚ)⌋ = 50 := by
  have hv : (50 : ℚ) / 100 * ((100 : ℕ) : ℚ) = ((50 : ℤ) : ℚ) := by push_cast; ring
  have hf : ⌊(50 : ℚ) / 100 * ((100 : ℕ) : ℚ)⌋ = 50 := by rw [hv, Int.floor_intCast]
  refine ⟨?_, hf⟩
  simp only [start_merge_step_calc, pyInt]
  rw [if_pos (by rw [hv]; norm_num)]

/-- Claim C5 as amended: for num_steps in [1,100] and
style_strength_ratio in [15,50], start_merge_step is the style-strength
fraction of the step count clamped at 30, i.e.
min (floor (ratio / 100 * num_steps)) 30. -/
theorem c5_amended (r : ℚ) (n : ℕ) (h1 : 15 ≤ r) (h2 : r ≤ 50)
    (h3 : 1 ≤ n) (h4 : n ≤ 100) :
    start_merge_step_calc r n = min ⌊r / 100 * (n : ℚ)⌋ 30 := by
  have hr : (0 : ℚ) ≤ r := le_trans (by norm_num) h1
  have hq : 0 ≤ r / 100 * (n : ℚ) := by positivity
  simp only [start_merge_step_calc, pyInt, if_pos hq]
  rcases le_or_lt (⌊r / 100 * (n : ℚ)⌋) 30 with h | h
  · rw [if_neg (not_lt.mpr h), min_eq_left h]
  · rw [if_pos h, min_eq_right h.le]

/-- Witness for the amended C5 at ratio 20 and 20 steps. -/
theorem c5_amended_witness :
    start_merge_step_calc 20 20 = min ⌊(20 : ℚ) / 100 * ((20 : ℕ) : ℚ)⌋ 30 :=
  c5_amended 20 20 (by norm_num) (by norm_num) (by norm_num) (by norm_num)

/-- Claim C3, counterexample: one input image in which the analyzer
detects two faces contributes a single embedding to the stacked batch
(the code appends only faces[0], source lines 246-247), not one vector
per detected face. -/
theorem c3_counterexample :
    ¬ ((collectIdEmbeds demoEnvTwoFaces [0]).length =
      (([0] : List ℕ).map fun i => (demoEnvTwoFaces.analyzeFaces i).length).sum) := by
  decide

/-- Claim C3 as amended: each input image contributes the embedding of
its FIRST detected face only — one vector when at least one face is
detected, nothing when none is — so the stacked batch is the
concatenation over the images of the first detected embedding. -/
theorem c3_amended {Image Emb : Type} (env : Env Image Emb) (imgs : List Image) :
    collectIdEmbeds env imgs =
      imgs.flatMap fun img => (env.analyzeFaces img).take 1 := by
  induction imgs with
  | nil => rfl
  | cons img rest ih =>
    simp only [collectIdEmbeds, List.filterMap_cons, List.flatMap_cons] at *
    cases h : env.analyzeFaces img with
    | nil => simpa [h] using ih
    | cons e es => simpa [h] using ih

/-- Claim C7: the list of images loaded and passed onward consists of
exactly the supplied inputs — the required first image followed by
whichever of the three optional slots are present, in order — and it is
exactly what the pipeline receives as input_id_images. -/
theorem c7_input_images {Image Emb : Type} (env : Env Image Emb)
    (req : Request Image) (p np : String) (embeds : List Emb) :
    collectInputImages req =
      req.input_image :: (req.input_image2.toList ++ req.input_image3.toList ++
        req.input_image4.toList) ∧
    (mkPipeArgs env req p np (collectInputImages req) embeds).input_id_images =
      collectInputImages req := by
  refine ⟨?_, rfl⟩
  rcases req with ⟨i1, i2, i3, i4, _, _, _, _, _, _, _, _, _, _⟩
  cases i2 <;> cases i3 <;> cases i4 <;> rfl

/-- Claim C9: apply_style looks the style up in the table, falling back
to the Photographic (Default) templates when the name is unknown, and
returns the positive template with every placeholder occurrence
replaced by the user prompt, paired with the negative template, a
space, and the user negative prompt. -/
theorem c9_apply_style (styles : String → Option (String × String))
    (d : String × String) (hd : styles DEFAULT_STYLE_NAME = some d)
    (style_name positive negative : String) :
    (∀ pn, styles style_name = some pn →
      apply_style styles style_name positive negative =
        some (pn.1.replace promptPlaceholder positive, pn.2 ++ " " ++ negative)) ∧
    (styles style_name = none →
      apply_style styles style_name positive negative =
        some (d.1.replace promptPlaceholder positive, d.2 ++ " " ++ negative)) := by
  constructor
  · intro pn h
    simp [apply_style, h]
  · intro h
    simp [apply_style, h, hd]

/-- Witness for C9: the demo style table at an unknown style name falls
back to the default templates. -/
theorem c9_witness :
    apply_style demoEnv.styles ("UnknownStyle") ("portrait") ("blurry") =
      some ((("photo of {prompt}, best quality") : String).replace promptPlaceholder
          ("portrait"),
        (("ugly, deformed") : String) ++ " " ++ ("blurry")) :=
  (c9_apply_style demoEnv.styles (("photo of {prompt}, best quality"),
      ("ugly, deformed")) rfl ("UnknownStyle") ("portrait") ("blurry")).2 rfl

/-- Helper: the generation stage either fails with the no-face error or
succeeds; it raises nothing else. -/
lemma runGeneration_fst_cases {Image Emb : Type} (env : Env Image Emb)
    (req : Request Image) (p np : String) :
    (runGeneration env req p np).1 = Except.error PredictError.noFace ∨
    ∃ ps, (runGeneration env req p np).1 = Except.ok ps := by
  unfold runGeneration
  by_cases h : (collectIdEmbeds env (collectInputImages req)).isEmpty = true <;>
    simp [h]

/-- Helper: the list of collected embeddings is empty exactly when the
analyzer detects no face in any of the images. -/
lemma collectIdEmbeds_eq_nil_iff {Image Emb : Type} (env : Env Image Emb)
    (imgs : List Image) :
    collectIdEmbeds env imgs = [] ↔ ∀ img ∈ imgs, env.analyzeFaces img = [] := by
  unfold collectIdEmbeds
  rw [List.filterMap_eq_nil_iff]
  constructor
  · intro h img hm
    exact List.head?_eq_none_iff.mp (h img hm)
  · intro h img hm
    exact List.head?_eq_none_iff.mpr (h img hm)

/-- Helper: when the prompt and negative-prompt checks pass and the
style lookup succeeds, `predict` reduces to the generation stage. -/
lemma predict_valid {Image Emb : Type} (env : Env Image Emb)
    (req : Request Image) (fs0 : List (String × Image))
    (hp : (env.encode req.prompt).count env.imageTokenId = 1)
    (hn : ¬(req.negative_prompt ≠ "" ∧
      env.imageTokenId ∈ env.encode req.negative_prompt))
    (p np : String)
    (hs : apply_style env.styles req.style_name req.prompt req.negative_prompt =
      some (p, np)) :
    predict env req fs0 = runGeneration env req p np := by
  have hmem : env.imageTokenId ∈ env.encode req.prompt := by
    by_contra hnm
    rw [List.count_eq_zero.mpr hnm] at hp
    exact one_ne_zero hp.symm
  unfold predict
  rw [if_neg (by simpa using hmem), if_neg (by simp [hp]), if_neg hn, hs]

/-- Helper: with the prompt containing the trigger token exactly once,
the two prompt ValueErrors can no longer occur. -/
lemma predict_count_one_cases {Image Emb : Type} (env : Env Image Emb)
    (req : Request Image) (fs0 : List (String × Image))
    (hp : (env.encode req.prompt).count env.imageTokenId = 1) :
    (predict env req fs0).1 = Except.error PredictError.negTrigger ∨
    (predict env req fs0).1 = Except.error PredictError.styleKeyError ∨
    (predict env req fs0).1 = Except.error PredictError.noFace ∨
    ∃ ps, (predict env req fs0).1 = Except.ok ps := by
  have hmem : env.imageTokenId ∈ env.encode req.prompt := by
    by_contra hnm
    rw [List.count_eq_zero.mpr hnm] at hp
    exact one_ne_zero hp.symm
  unfold predict
  rw [if_neg (by simpa using hmem), if_neg (by simp [hp])]
  split_ifs with h
  · simp
  · split
    · simp
    · rename_i p np heq
      rcases runGeneration_fst_cases env req p np with h1 | ⟨ps, h1⟩
      · exact Or.inr (Or.inr (Or.inl h1))
      · exact Or.inr (Or.inr (Or.inr ⟨ps, h1⟩))

/-- Claim C1: predict proceeds past prompt validation iff the encoded
prompt contains the trigger token id exactly once; when the id is
absent it raises the find-trigger ValueError, when it occurs more than
once it raises the multiple-trigger ValueError, and in both cases no
output is produced (empty outputs directory, no paths). -/
theorem c1_prompt_trigger_validation {Image Emb : Type} (env : Env Image Emb)
    (req : Request Image) (fs0 : List (String × Image)) :
    (((predict env req fs0).1 ≠ Except.error PredictError.findTrigger ∧
      (predict env req fs0).1 ≠ Except.error PredictError.multiTrigger) ↔
      (env.encode req.prompt).count env.imageTokenId = 1) ∧
    (env.imageTokenId ∉ env.encode req.prompt →
      predict env req fs0 = (Except.error PredictError.findTrigger, [])) ∧
    (1 < (env.encode req.prompt).count env.imageTokenId →
      predict env req fs0 = (Except.error PredictError.multiTrigger, [])) := by
  have habs : env.imageTokenId ∉ env.encode req.prompt →
      predict env req fs0 = (Except.error PredictError.findTrigger, []) := by
    intro h
    unfold predict
    rw [if_pos h]
  have hmul : 1 < (env.encode req.prompt).count env.imageTokenId →
      predict env req fs0 = (Except.error PredictError.multiTrigger, []) := by
    intro h
    have hmem : env.imageTokenId ∈ env.encode req.prompt :=
      List.count_pos_iff.mp (lt_trans one_pos h)
    unfold predict
    rw [if_neg (by simpa using hmem), if_pos h]
  refine ⟨⟨?_, ?_⟩, habs, hmul⟩
  · rintro ⟨h1, h2⟩
    by_contra hne
    rcases Nat.lt_or_ge ((env.encode req.prompt).count env.imageTokenId) 1 with hlt | hge
    · have h0 : (env.encode req.prompt).count env.imageTokenId = 0 := by omega
      exact h1 (by rw [habs (List.count_eq_zero.mp h0)])
    · have hgt : 1 < (env.encode req.prompt).count env.imageTokenId := by omega
      exact h2 (by rw [hmul hgt])
  · intro hp
    rcases predict_count_one_cases env req fs0 hp with h | h | h | ⟨ps, h⟩ <;>
      exact ⟨by simp [h], by simp [h]⟩

/-- Witness for C1 at the demo environment and request, whose prompt
holds the trigger token exactly once. -/
theorem c1_witness :
    (predict demoEnv demoReq []).1 ≠ Except.error PredictError.findTrigger ∧
    (predict demoEnv demoReq []).1 ≠ Except.error PredictError.multiTrigger :=
  (c1_prompt_trigger_validation demoEnv demoReq []).1.mpr (by decide)

/-- Claim C2: once the prompt checks pass and the style lookup
succeeds, predict fails with the no-face ValueError and produces no
images exactly when the analyzer detects zero faces in every supplied
input image; detecting a face in at least one image rules this failure
out. -/
theorem c2_no_face_error {Image Emb : Type} (env : Env Image Emb)
    (req : Request Image) (fs0 : List (String × Image))
    (hp : (env.encode req.prompt).count env.imageTokenId = 1)
    (hn : ¬(req.negative_prompt ≠ "" ∧
      env.imageTokenId ∈ env.encode req.negative_prompt))
    (p np : String)
    (hs : apply_style env.styles req.style_name req.prompt req.negative_prompt =
      some (p, np)) :
    predict env req fs0 = (Except.error PredictError.noFace, []) ↔
      ∀ img ∈ collectInputImages req, env.analyzeFaces img = [] := by
  rw [predict_valid env req fs0 hp hn p np hs, ← collectIdEmbeds_eq_nil_iff]
  unfold runGeneration
  by_cases h : (collectIdEmbeds env (collectInputImages req)).isEmpty = true
  · rw [if_pos h]
    simp [List.isEmpty_iff.mp h]
  · rw [if_neg h]
    constructor
    · intro hcon
      exact absurd (congrArg Prod.fst hcon) (by simp)
    · intro hnil
      exact absurd (List.isEmpty_iff.mpr hnil) h

/-- A demo environment whose analyzer never detects a face. -/
def demoEnvNoFaces : Env ℕ ℕ := { demoEnv with analyzeFaces := fun _ => [] }

/-- Witness for C2: with the no-face analyzer, the demo request fails
with the no-face error and an empty outputs directory. -/
theorem c2_witness :
    predict demoEnvNoFaces demoReq [] = (Except.error PredictError.noFace, []) :=
  (c2_no_face_error demoEnvNoFaces demoReq [] (by decide) (by decide) _ _
    rfl).mpr (by decide)

/-- Helper: with the safety checker enabled, the saving loop keeps
exactly the positions whose NSFW flag is unset, naming each kept file
after its original enumeration index. -/
lemma saveLoop_false_fst {Image : Type} (nsfw : List Bool) :
    ∀ (imgs : List Image) (k : ℕ),
      (saveLoop false nsfw k imgs).map Prod.fst =
        ((List.range' k imgs.length).filter fun i => !nsfw.getD i false).map
          pathName := by
  intro imgs
  induction imgs with
  | nil => intro k; simp [saveLoop]
  | cons img rest ih =>
    intro k
    rw [List.length_cons, List.range'_succ]
    cases h : nsfw[k]?.getD false
    · simp [saveLoop, List.getD_eq_getElem?_getD, h, ih (k + 1)]
    · simp [saveLoop, List.getD_eq_getElem?_getD, h, ih (k + 1)]

/-- Helper: with the safety checker disabled, the saving loop records
one path per image, in enumeration order. -/
lemma saveLoop_true_fst {Image : Type} (nsfw : List Bool) :
    ∀ (imgs : List Image) (k : ℕ),
      (saveLoop true nsfw k imgs).map Prod.fst =
        (List.range' k imgs.length).map pathName := by
  intro imgs
  induction imgs with
  | nil => intro k; simp [saveLoop]
  | cons img rest ih =>
    intro k
    rw [List.length_cons, List.range'_succ]
    simp [saveLoop, ih (k + 1)]

/-- Helper: with the safety checker disabled, the saving loop writes
every image. -/
lemma saveLoop_true_snd {Image : Type} (nsfw : List Bool) :
    ∀ (imgs : List Image) (k : ℕ),
      (saveLoop true nsfw k imgs).map Prod.snd = imgs := by
  intro imgs
  induction imgs with
  | nil => intro k; simp [saveLoop]
  | cons img rest ih =>
    intro k
    simp [saveLoop, ih (k + 1)]

/-- Helper: the paths of the full enabled saving pass are the kept
indices mapped to their file names. -/
lemma saveImages_false_fst {Image : Type} (nsfw : List Bool)
    (images : List Image) :
    (saveImages false nsfw images).map Prod.fst =
      (specKeptIndices nsfw images.length).map pathName := by
  unfold saveImages specKeptIndices
  rw [saveLoop_false_fst nsfw images 0, List.range_eq_range']

/-- Claim C4: with the safety checker enabled and generation reached,
the returned list is exactly the generated images whose NSFW flag is
false, in generation order, each named after its original index; and
the returned paths are exactly the files written to the outputs
directory. -/
theorem c4_safety_filtering {Image Emb : Type} (env : Env Image Emb)
    (req : Request Image) (fs0 : List (String × Image))
    (hp : (env.encode req.prompt).count env.imageTokenId = 1)
    (hn : ¬(req.negative_prompt ≠ "" ∧
      env.imageTokenId ∈ env.encode req.negative_prompt))
    (p np : String)
    (hs : apply_style env.styles req.style_name req.prompt req.negative_prompt =
      some (p, np))
    (hd : req.disable_safety_checker = false)
    (hne : collectIdEmbeds env (collectInputImages req) ≠ [])
    (images : List Image)
    (himages : images = env.pipe (mkPipeArgs env req p np (collectInputImages req)
      (collectIdEmbeds env (collectInputImages req)))) :
    (predict env req fs0).1 =
      Except.ok ((specKeptIndices (env.safetyChecker images) images.length).map
        pathName) ∧
    (predict env req fs0).1 =
      Except.ok (((predict env req fs0).2).map Prod.fst) := by
  rw [predict_valid env req fs0 hp hn p np hs]
  unfold runGeneration
  rw [if_neg (fun h => hne (List.isEmpty_iff.mp h))]
  rw [hd, ← himages]
  exact ⟨congrArg Except.ok (saveImages_false_fst (env.safetyChecker images) images),
    rfl⟩

/-- Witness for C4 at the demo environment: two images are generated,
the checker flags the second, and only image 0 is returned. -/
theorem c4_witness :
    (predict demoEnv demoReq []).1 = Except.ok [pathName 0] := by
  have h := (c4_safety_filtering demoEnv demoReq [] (by decide) (by decide) _ _
    rfl rfl (by decide) _ rfl).1
  rw [h]
  rfl

/-- Claim C6: when the prompt itself is valid, a non-empty negative
prompt containing the trigger token id makes predict fail with the
negative-prompt ValueError whatever the face analyzer, pipeline and
safety checker would do (so before any of them runs, with no output);
and when the negative prompt does not contain the trigger token id,
this error is never raised. -/
theorem c6_negative_prompt_trigger {Image Emb : Type} (env : Env Image Emb)
    (req : Request Image) (fs0 : List (String × Image)) :
    ((env.encode req.prompt).count env.imageTokenId = 1 →
      req.negative_prompt ≠ "" →
      env.imageTokenId ∈ env.encode req.negative_prompt →
      ∀ (af : Image → List Emb) (pp : PipeArgs Image Emb → List Image)
        (sc : List Image → List Bool),
        predict { env with analyzeFaces := af, pipe := pp, safetyChecker := sc }
          req fs0 = (Except.error PredictError.negTrigger, [])) ∧
    (env.imageTokenId ∉ env.encode req.negative_prompt →
      (predict env req fs0).1 ≠ Except.error PredictError.negTrigger) := by
  constructor
  · intro hp hne hin af pp sc
    have hmem : env.imageTokenId ∈ env.encode req.prompt :=
      List.count_pos_iff.mp (by omega)
    unfold predict
    rw [if_neg (by simpa using hmem), if_neg (by simp [hp]),
      if_pos (⟨hne, hin⟩ : req.negative_prompt ≠ "" ∧
        env.imageTokenId ∈ env.encode req.negative_prompt)]
  · intro hnin
    unfold predict
    by_cases h1 : env.imageTokenId ∉ env.encode req.prompt
    · rw [if_pos h1]; simp
    · rw [if_neg h1]
      by_cases h2 : 1 < (env.encode req.prompt).count env.imageTokenId
      · rw [if_pos h2]; simp
      · rw [if_neg h2, if_neg (fun hc => hnin hc.2)]
        split
        · simp
        · rename_i p np heq
          rcases runGeneration_fst_cases env req p np with h | ⟨ps, h⟩ <;> simp [h]

/-- A demo request whose negative prompt encodes to a list containing
the trigger token id. -/
def demoReqNegTrigger : Request ℕ := { demoReq with negative_prompt := "bad" }

/-- Witness for C6: the negative-prompt error fires with analyzer,
pipeline and safety checker replaced by stubs, showing none of them is
consulted. -/
theorem c6_witness :
    predict { demoEnv with
                analyzeFaces := (fun _ => ([] : List ℕ)),
                pipe := (fun _ => ([] : List ℕ)),
                safetyChecker := (fun _ => ([] : List Bool)) }
      demoReqNegTrigger [] =
      (Except.error PredictError.negTrigger, []) :=
  (c6_negative_prompt_trigger demoEnv demoReqNegTrigger []).1 (by decide)
    (by decide) (by decide) (fun _ => []) (fun _ => []) (fun _ => [])

/-- Claim C8: with disable_safety_checker set and generation reached,
the safety classifier is never invoked (the outcome is the same for
every safety checker), every generated image is saved, and the returned
paths are one per requested output, in generation order. -/
theorem c8_safety_disabled {Image Emb : Type} (env : Env Image Emb)
    (req : Request Image) (fs0 : List (String × Image))
    (hp : (env.encode req.prompt).count env.imageTokenId = 1)
    (hn : ¬(req.negative_prompt ≠ "" ∧
      env.imageTokenId ∈ env.encode req.negative_prompt))
    (p np : String)
    (hs : apply_style env.styles req.style_name req.prompt req.negative_prompt =
      some (p, np))
    (hd : req.disable_safety_checker = true)
    (hne : collectIdEmbeds env (collectInputImages req) ≠ [])
    (hlen : pipeProducesRequestedCount env.pipe) :
    (∀ sc, predict { env with safetyChecker := sc } req fs0 =
      predict env req fs0) ∧
    (predict env req fs0).1 =
      Except.ok ((List.range req.num_outputs).map pathName) ∧
    ((predict env req fs0).2).map Prod.snd =
      env.pipe (mkPipeArgs env req p np (collectInputImages req)
        (collectIdEmbeds env (collectInputImages req))) := by
  have hred : ∀ (e2 : Env Image Emb), e2.encode = env.encode →
      e2.imageTokenId = env.imageTokenId → e2.styles = env.styles →
      e2.analyzeFaces = env.analyzeFaces → e2.pipe = env.pipe →
      predict e2 req fs0 = runGeneration e2 req p np := by
    intro e2 he ht hst _ _
    exact predict_valid e2 req fs0 (by rw [he, ht]; exact hp)
      (by rw [he, ht]; exact hn) p np (by rw [hst]; exact hs)
  have hemb : ∀ (e2 : Env Image Emb), e2.analyzeFaces = env.analyzeFaces →
      collectIdEmbeds e2 (collectInputImages req) =
        collectIdEmbeds env (collectInputImages req) := by
    intro e2 ha
    unfold collectIdEmbeds
    rw [ha]
  have hrunGen : ∀ (sc : List Image → List Bool),
      runGeneration { env with safetyChecker := sc } req p np =
        runGeneration env req p np := by
    intro sc
    simp only [runGeneration, hemb { env with safetyChecker := sc } rfl, hd,
      if_true]
    rfl
  have hmain : predict env req fs0 = runGeneration env req p np :=
    hred env rfl rfl rfl rfl rfl
  refine ⟨?_, ?_, ?_⟩
  · intro sc
    rw [hred { env with safetyChecker := sc } rfl rfl rfl rfl rfl,
      hrunGen sc, hmain]
  · rw [hmain]
    unfold runGeneration
    rw [if_neg (fun h => hne (List.isEmpty_iff.mp h)), hd]
    refine congrArg Except.ok ?_
    unfold saveImages
    rw [saveLoop_true_fst, List.range_eq_range',
      hlen (mkPipeArgs env req p np (collectInputImages req)
        (collectIdEmbeds env (collectInputImages req)))]
    rfl
  · rw [hmain]
    unfold runGeneration
    rw [if_neg (fun h => hne (List.isEmpty_iff.mp h)), hd]
    exact saveLoop_true_snd _ _ 0

/-- A demo request with the safety checker disabled. -/
def demoReqNoSafety : Request ℕ := { demoReq with disable_safety_checker := true }

/-- Witness for C8: with the checker disabled both generated images
come back, named image_0 and image_1. -/
theorem c8_witness :
    (predict demoEnv demoReqNoSafety []).1 =
      Except.ok ((List.range demoReqNoSafety.num_outputs).map pathName) :=
  (c8_safety_disabled demoEnv demoReqNoSafety [] (by decide) (by decide) _ _
    rfl rfl (by decide) (fun a => List.length_range _)).2.1

/-- Helper: every outcome of predict is either an error with an empty
outputs directory, or a success whose value is the path list of the
saved files. -/
lemma predict_shape {Image Emb : Type} (env : Env Image Emb)
    (req : Request Image) (fs0 : List (String × Image)) :
    (∃ e, predict env req fs0 = (Except.error e, [])) ∨
    ∃ saved, predict env req fs0 = (Except.ok (saved.map Prod.fst), saved) := by
  unfold predict
  by_cases h1 : env.imageTokenId ∉ env.encode req.prompt
  · rw [if_pos h1]; exact Or.inl ⟨_, rfl⟩
  · rw [if_neg h1]
    by_cases h2 : 1 < (env.encode req.prompt).count env.imageTokenId
    · rw [if_pos h2]; exact Or.inl ⟨_, rfl⟩
    · rw [if_neg h2]
      by_cases h3 : req.negative_prompt ≠ "" ∧
          env.imageTokenId ∈ env.encode req.negative_prompt
      · rw [if_pos h3]; exact Or.inl ⟨_, rfl⟩
      · rw [if_neg h3]
        rcases heq : apply_style env.styles req.style_name req.prompt
            req.negative_prompt with _ | ⟨p, np⟩
        · exact Or.inl ⟨_, rfl⟩
        · show (∃ e, runGeneration env req p np = (Except.error e, [])) ∨
            ∃ saved, runGeneration env req p np = (Except.ok (saved.map Prod.fst), saved)
          unfold runGeneration
          by_cases h4 : (collectIdEmbeds env (collectInputImages req)).isEmpty = true
          · rw [if_pos h4]; exact Or.inl ⟨_, rfl⟩
          · rw [if_neg h4]; exact Or.inr ⟨_, rfl⟩

/-- Helper: a successful predict returns exactly the paths of the files
it wrote into the outputs directory. -/
lemma predict_ok_paths {Image Emb : Type} (env : Env Image Emb)
    (req : Request Image) (fs0 : List (String × Image)) (ps : List String)
    (h : (predict env req fs0).1 = Except.ok ps) :
    ps = ((predict env req fs0).2).map Prod.fst := by
  rcases predict_shape env req fs0 with ⟨e, hsh⟩ | ⟨saved, hsh⟩
  · rw [hsh] at h; exact absurd h (by simp)
  · rw [hsh] at h ⊢
    exact (Except.ok.inj h).symm

/-- Claim C10: the outputs directory is reset before anything else, so
the outcome of predict is independent of whatever the directory held
before the call, and on success the returned paths are exactly the
files the current request wrote. -/
theorem c10_outputs_reset {Image Emb : Type} (env : Env Image Emb)
    (req : Request Image) (fs0 : List (String × Image)) :
    predict env req fs0 = predict env req [] ∧
    (∀ ps, (predict env req fs0).1 = Except.ok ps →
      ps = ((predict env req fs0).2).map Prod.fst) :=
  ⟨rfl, fun ps h => predict_ok_paths env req fs0 ps h⟩

/-- Witness for C10: a stale file in the outputs directory does not
change the result of the demo request. -/
theorem c10_witness :
    predict demoEnv demoReq [(pathName 5, 99)] = predict demoEnv demoReq [] :=
  (c10_outputs_reset demoEnv demoReq [(pathName 5, 99)]).1
